import Mathlib

/-!
Verification of the capture / compositing core of the xpose repository
(src/capture.rs, src/renderer.rs, src/connection.rs, src/main.rs).

The X11 server is modelled as an explicit state: the sets of live
server-side resources (pixmaps, pictures, damage registrations,
redirected windows), a geometry table for drawables, a failure schedule
(one Boolean per fallible call, in program order; an exhausted schedule
means every remaining call succeeds), and a trace of the requests the
client attempted, in order.  Each x11rb call of the source becomes a
function from this state to a new state plus an `Except`-style result,
and each Rust function is translated with the same sequence of calls and
the same early returns as the source (`?` becomes `andThen`).
Machine integers (u16 dimensions, u32 ids) are modelled as `Nat`; none
of the verified code relies on wrap-around.  The f64 opacity arithmetic
of `render_window_with_opacity` is modelled exactly over `ℚ`: it only
involves clamping and one multiplication by 65535, both exact in f64 on
the relevant range.
-/

deriving instance DecidableEq for Except

namespace Xpose

/-- Color model of an XRender picture format (`render::PictType`). -/
inductive PictType where
  | direct
  | indexed
deriving DecidableEq, Repr

/-- One entry of the reply to `render::query_pict_formats`
(src/connection.rs); only the fields inspected by the scan are kept. -/
structure PictFormatInfo where
  id : Nat
  ty : PictType
  depth : Nat
deriving DecidableEq, Repr

/-- The statable constructors of `XposeError` (src/error.rs); the
wrappers around external library errors carry opaque payloads and are
not needed by any claim. -/
inductive XposeError where
  | noWindows
  | noComposite
  | noRender
  | noPictFormat
  | noDamage
deriving DecidableEq, Repr

/-- Pixel-format resolution from `XConnection::new` (src/connection.rs,
lines 89–97): scan the advertised formats for one whose depth equals the
root depth and whose type is direct, keeping its id; absence is the
`NoPictFormat` error. -/
def find_pict_format_rgb (formats : List PictFormatInfo) (root_depth : Nat) :
    Except XposeError Nat :=
  match formats.find? (fun f => f.depth == root_depth && f.ty == PictType.direct) with
  | some f => Except.ok f.id
  | none => Except.error XposeError.noPictFormat

/-- XRender composite operators used by the renderer. -/
inductive PictOp where
  | src
  | over
deriving DecidableEq, Repr

/-- An X request as attempted by the client, with the arguments the
claims are about. -/
inductive Req where
  | redirectWindow (win : Nat)
  | unredirectWindow (win : Nat)
  | nameWindowPixmap (win pix : Nat)
  | getGeometry (drawable : Nat)
  | createPicture (pic pix fmt : Nat)
  | createPixmap (depth pix drawable w h : Nat)
  | createGC (gc pix : Nat)
  | polyFillRectangle (pix gc : Nat) (x y : Int) (w h : Nat)
  | freeGC (gc : Nat)
  | damageCreate (dmg win : Nat)
  | damageDestroy (dmg : Nat)
  | freePicture (pic : Nat)
  | freePixmap (pix : Nat)
  | setPictureTransform (pic : Nat) (m11 m22 : Int)
  | setPictureFilter (pic : Nat) (filterName : String)
  | compositeReq (op : PictOp) (src mask dst : Nat) (dstX dstY : Int) (w h : Nat)
  | createSolidFill (pic : Nat) (red green blue alpha : Nat)
  | flushReq
deriving DecidableEq, Repr

/-- The modelled X server connection state. -/
structure XState where
  /-- id generator of the connection (`generate_id`). -/
  nextId : Nat
  /-- live server-side pixmaps. -/
  pixmaps : List Nat
  /-- live server-side pictures. -/
  pictures : List Nat
  /-- live damage registrations. -/
  damages : List Nat
  /-- windows currently redirected off-screen. -/
  redirected : List Nat
  /-- geometry table: drawable id to (width, height). -/
  geoms : List (Nat × Nat × Nat)
  /-- failure schedule: entry k tells whether the k-th fallible call of
  the run fails; an exhausted schedule means success. -/
  fails : List Bool
  /-- requests attempted so far, in order. -/
  trace : List Req
deriving DecidableEq, Repr

/-- Record an attempted request and consume one schedule entry; the
returned flag is true when this call fails. -/
def XState.attempt (s : XState) (r : Req) : XState × Bool :=
  match s.fails with
  | [] => ({ s with trace := s.trace ++ [r] }, false)
  | b :: rest => ({ s with trace := s.trace ++ [r], fails := rest }, b)

/-- `Connection::generate_id`: client-side id allocation; fallible in
the source (`ReplyOrIdError`) but not an X request, so it consumes a
schedule entry without entering the trace. -/
def generate_id (s : XState) : XState × Except Unit Nat :=
  match s.fails with
  | [] => ({ s with nextId := s.nextId + 1 }, Except.ok s.nextId)
  | b :: rest =>
    if b then ({ s with fails := rest }, Except.error ())
    else ({ s with fails := rest, nextId := s.nextId + 1 }, Except.ok s.nextId)

/-- `composite::redirect_window`. -/
def redirect_window (s : XState) (win : Nat) : XState × Except Unit Unit :=
  match s.attempt (Req.redirectWindow win) with
  | (s, true) => (s, Except.error ())
  | (s, false) => ({ s with redirected := win :: s.redirected }, Except.ok ())

/-- `composite::unredirect_window`. -/
def unredirect_window (s : XState) (win : Nat) : XState × Except Unit Unit :=
  match s.attempt (Req.unredirectWindow win) with
  | (s, true) => (s, Except.error ())
  | (s, false) =>
    ({ s with redirected := s.redirected.filter (fun w => w != win) }, Except.ok ())

/-- `composite::name_window_pixmap`: binds `pix` to the window's
off-screen storage, making it a live pixmap. -/
def name_window_pixmap (s : XState) (win pix : Nat) : XState × Except Unit Unit :=
  match s.attempt (Req.nameWindowPixmap win pix) with
  | (s, true) => (s, Except.error ())
  | (s, false) => ({ s with pixmaps := pix :: s.pixmaps }, Except.ok ())

/-- Geometry lookup with the server's table; unknown drawables report
(0, 0). -/
def lookupGeom (geoms : List (Nat × Nat × Nat)) (d : Nat) : Nat × Nat :=
  match geoms.find? (fun g => g.1 == d) with
  | some g => g.2
  | none => (0, 0)

/-- `get_geometry(...)?.reply()?`: one round trip, one failure point. -/
def get_geometry (s : XState) (d : Nat) : XState × Except Unit (Nat × Nat) :=
  match s.attempt (Req.getGeometry d) with
  | (s, true) => (s, Except.error ())
  | (s, false) => (s, Except.ok (lookupGeom s.geoms d))

/-- `render::create_picture`. -/
def create_picture (s : XState) (pic pix fmt : Nat) : XState × Except Unit Unit :=
  match s.attempt (Req.createPicture pic pix fmt) with
  | (s, true) => (s, Except.error ())
  | (s, false) => ({ s with pictures := pic :: s.pictures }, Except.ok ())

/-- `create_pixmap` with explicit dimensions; the new drawable's
geometry is recorded. -/
def create_pixmap (s : XState) (depth pix drawable w h : Nat) : XState × Except Unit Unit :=
  match s.attempt (Req.createPixmap depth pix drawable w h) with
  | (s, true) => (s, Except.error ())
  | (s, false) =>
    ({ s with pixmaps := pix :: s.pixmaps, geoms := (pix, w, h) :: s.geoms }, Except.ok ())

/-- `create_gc` (the foreground color constant 0x222222 is not needed by
any claim). -/
def create_gc (s : XState) (gc pix : Nat) : XState × Except Unit Unit :=
  match s.attempt (Req.createGC gc pix) with
  | (s, true) => (s, Except.error ())
  | (s, false) => (s, Except.ok ())

/-- `poly_fill_rectangle` with a single rectangle. -/
def poly_fill_rectangle (s : XState) (pix gc : Nat) (x y : Int) (w h : Nat) :
    XState × Except Unit Unit :=
  match s.attempt (Req.polyFillRectangle pix gc x y w h) with
  | (s, true) => (s, Except.error ())
  | (s, false) => (s, Except.ok ())

/-- `free_gc`. -/
def free_gc (s : XState) (gc : Nat) : XState × Except Unit Unit :=
  match s.attempt (Req.freeGC gc) with
  | (s, true) => (s, Except.error ())
  | (s, false) => (s, Except.ok ())

/-- `damage::create` (report level NON_EMPTY, a constant). -/
def damage_create (s : XState) (dmg win : Nat) : XState × Except Unit Unit :=
  match s.attempt (Req.damageCreate dmg win) with
  | (s, true) => (s, Except.error ())
  | (s, false) => ({ s with damages := dmg :: s.damages }, Except.ok ())

/-- `damage::destroy`. -/
def damage_destroy (s : XState) (dmg : Nat) : XState × Except Unit Unit :=
  match s.attempt (Req.damageDestroy dmg) with
  | (s, true) => (s, Except.error ())
  | (s, false) =>
    ({ s with damages := s.damages.filter (fun d => d != dmg) }, Except.ok ())

/-- `render::free_picture`. -/
def free_picture (s : XState) (pic : Nat) : XState × Except Unit Unit :=
  match s.attempt (Req.freePicture pic) with
  | (s, true) => (s, Except.error ())
  | (s, false) =>
    ({ s with pictures := s.pictures.filter (fun p => p != pic) }, Except.ok ())

/-- `free_pixmap`. -/
def free_pixmap (s : XState) (pix : Nat) : XState × Except Unit Unit :=
  match s.attempt (Req.freePixmap pix) with
  | (s, true) => (s, Except.error ())
  | (s, false) =>
    ({ s with pixmaps := s.pixmaps.filter (fun p => p != pix) }, Except.ok ())

/-- `double_to_fixed` (src/renderer.rs): 16.16 fixed point,
`(d * 65536) as i32`; truncation equals the floor on the non-negative
scales this code produces. -/
def double_to_fixed (d : ℚ) : Int := ⌊d * 65536⌋

/-- `render::set_picture_transform` with the two diagonal scale entries
of the matrix (the off-diagonal entries are always zero in this code). -/
def set_picture_transform (s : XState) (pic : Nat) (m11 m22 : Int) :
    XState × Except Unit Unit :=
  match s.attempt (Req.setPictureTransform pic m11 m22) with
  | (s, true) => (s, Except.error ())
  | (s, false) => (s, Except.ok ())

/-- `render::set_picture_filter`. -/
def set_picture_filter (s : XState) (pic : Nat) (filterName : String) :
    XState × Except Unit Unit :=
  match s.attempt (Req.setPictureFilter pic filterName) with
  | (s, true) => (s, Except.error ())
  | (s, false) => (s, Except.ok ())

/-- `render::composite`. -/
def composite_request (s : XState) (op : PictOp) (src mask dst : Nat)
    (dstX dstY : Int) (w h : Nat) : XState × Except Unit Unit :=
  match s.attempt (Req.compositeReq op src mask dst dstX dstY w h) with
  | (s, true) => (s, Except.error ())
  | (s, false) => (s, Except.ok ())

/-- `render::create_solid_fill`: creates a live picture. -/
def create_solid_fill (s : XState) (pic red green blue alpha : Nat) :
    XState × Except Unit Unit :=
  match s.attempt (Req.createSolidFill pic red green blue alpha) with
  | (s, true) => (s, Except.error ())
  | (s, false) => ({ s with pictures := pic :: s.pictures }, Except.ok ())

/-- `conn.flush()`. -/
def flush (s : XState) : XState × Except Unit Unit :=
  match s.attempt Req.flushReq with
  | (s, true) => (s, Except.error ())
  | (s, false) => (s, Except.ok ())

/-- The Rust `?` operator: propagate an error with the state it left
behind, otherwise continue. -/
def andThen (r : XState × Except Unit α) (f : XState → α → XState × Except Unit β) :
    XState × Except Unit β :=
  match r with
  | (s, Except.error e) => (s, Except.error e)
  | (s, Except.ok a) => f s a

/-- `WindowInfo` (src/window_finder.rs); the two string fields, used
only for logging, are omitted. -/
structure WindowInfo where
  client_window : Nat
  frame_window : Nat
  x : Int
  y : Int
  width : Nat
  height : Nat
  is_mapped : Bool
deriving DecidableEq, Repr

/-- `CapturedWindow` (src/capture.rs). -/
structure CapturedWindow where
  info : WindowInfo
  pixmap : Nat
  picture : Nat
  damage : Nat
deriving DecidableEq, Repr

/-- `XConnection::capture_window` (src/capture.rs, lines 22–71).
`fmt` is the connection field `pict_format_rgb`. -/
def capture_window (s : XState) (fmt : Nat) (info : WindowInfo) :
    XState × Except Unit CapturedWindow :=
  andThen (redirect_window s info.frame_window) fun s _ =>
  andThen (generate_id s) fun s pixmap =>
  andThen (name_window_pixmap s info.frame_window pixmap) fun s _ =>
  andThen (get_geometry s pixmap) fun s geom =>
  andThen (generate_id s) fun s picture =>
  andThen (create_picture s picture pixmap fmt) fun s _ =>
  andThen (generate_id s) fun s damage_id =>
  andThen (damage_create s damage_id info.frame_window) fun s _ =>
  andThen (flush s) fun s _ =>
  (s, Except.ok
    { info := { info with width := geom.1, height := geom.2 },
      pixmap := pixmap, picture := picture, damage := damage_id })

/-- `XConnection::release_capture` (src/capture.rs, lines 74–92): four
steps in sequence, each followed by `?`. -/
def release_capture (s : XState) (capture : CapturedWindow) : XState × Except Unit Unit :=
  andThen (damage_destroy s capture.damage) fun s _ =>
  andThen (free_picture s capture.picture) fun s _ =>
  andThen (free_pixmap s capture.pixmap) fun s _ =>
  andThen (unredirect_window s capture.info.frame_window) fun s _ =>
  (s, Except.ok ())

/-- `XConnection::refresh_capture` (src/capture.rs, lines 96–122): free
the old picture and pixmap, then name a new pixmap and create a new
picture; the capture fields are updated only on full success. -/
def refresh_capture (s : XState) (fmt : Nat) (capture : CapturedWindow) :
    XState × Except Unit CapturedWindow :=
  andThen (free_picture s capture.picture) fun s _ =>
  andThen (free_pixmap s capture.pixmap) fun s _ =>
  andThen (generate_id s) fun s pixmap =>
  andThen (name_window_pixmap s capture.info.frame_window pixmap) fun s _ =>
  andThen (generate_id s) fun s picture =>
  andThen (create_picture s picture pixmap fmt) fun s _ =>
  andThen (flush s) fun s _ =>
  (s, Except.ok { capture with pixmap := pixmap, picture := picture })

/-- `XConnection::create_placeholder_capture` (src/capture.rs, lines
126–188).  The redirect result is discarded in the source
(`let _ = ...`); `root_depth` and `root` are connection fields. -/
def create_placeholder_capture (s : XState) (fmt root_depth root : Nat)
    (info : WindowInfo) : XState × Except Unit CapturedWindow :=
  let s := (redirect_window s info.frame_window).1
  andThen (generate_id s) fun s pixmap =>
  andThen (create_pixmap s root_depth pixmap root (max info.width 1) (max info.height 1))
    fun s _ =>
  andThen (generate_id s) fun s gc =>
  andThen (create_gc s gc pixmap) fun s _ =>
  andThen (poly_fill_rectangle s pixmap gc 0 0 (max info.width 1) (max info.height 1))
    fun s _ =>
  andThen (free_gc s gc) fun s _ =>
  andThen (generate_id s) fun s picture =>
  andThen (create_picture s picture pixmap fmt) fun s _ =>
  andThen (generate_id s) fun s damage_id =>
  andThen (damage_create s damage_id info.frame_window) fun s _ =>
  andThen (flush s) fun s _ =>
  (s, Except.ok { info := info, pixmap := pixmap, picture := picture, damage := damage_id })

/-- `XConnection::try_upgrade_placeholder` (src/capture.rs, lines
192–252): every failure branch returns false with the capture untouched
(freeing the new pixmap where the source does); on success the old
picture and pixmap are freed and the fields replaced. -/
def try_upgrade_placeholder (s : XState) (fmt : Nat) (capture : CapturedWindow) :
    XState × Bool × CapturedWindow :=
  match generate_id s with
  | (s, Except.error _) => (s, false, capture)
  | (s, Except.ok new_pixmap) =>
  match name_window_pixmap s capture.info.frame_window new_pixmap with
  | (s, Except.error _) => (s, false, capture)
  | (s, Except.ok _) =>
  match get_geometry s new_pixmap with
  | (s, Except.error _) => ((free_pixmap s new_pixmap).1, false, capture)
  | (s, Except.ok geom) =>
  match generate_id s with
  | (s, Except.error _) => ((free_pixmap s new_pixmap).1, false, capture)
  | (s, Except.ok new_picture) =>
  match create_picture s new_picture new_pixmap fmt with
  | (s, Except.error _) => ((free_pixmap s new_pixmap).1, false, capture)
  | (s, Except.ok _) =>
  let s := (free_picture s capture.picture).1
  let s := (free_pixmap s capture.pixmap).1
  let s := (flush s).1
  let newInfo := { capture.info with width := geom.1, height := geom.2 }
  (s, true, { capture with pixmap := new_pixmap, picture := new_picture, info := newInfo })

/-- `ThumbnailLayout` (src/layout.rs). -/
structure ThumbnailLayout where
  x : Int
  y : Int
  width : Nat
  height : Nat
  window_index : Nat
deriving DecidableEq, Repr

/-- `Renderer::render_thumbnail` (src/renderer.rs, lines 221–276):
zero-area destination is a no-op; otherwise set the scale transform, set
the `bilinear` filter, and composite with the SRC operator. -/
def render_thumbnail (s : XState) (src_picture dst_picture : Nat)
    (src_width src_height : Nat) (layout : ThumbnailLayout) :
    XState × Except Unit Unit :=
  if layout.width = 0 ∨ layout.height = 0 then (s, Except.ok ())
  else
    andThen (set_picture_transform s src_picture
      (double_to_fixed ((src_width : ℚ) / (layout.width : ℚ)))
      (double_to_fixed ((src_height : ℚ) / (layout.height : ℚ)))) fun s _ =>
    andThen (set_picture_filter s src_picture "bilinear") fun s _ =>
    andThen (composite_request s PictOp.src src_picture 0 dst_picture
      layout.x layout.y layout.width layout.height) fun s _ =>
    (s, Except.ok ())

/-- Rust `f64::clamp(lo, hi)`, exact over ℚ. -/
def clampQ (x lo hi : ℚ) : ℚ := max lo (min x hi)

/-- Rust `as u16` on a non-negative f64: truncate and saturate at
65535 (for negative inputs it saturates at 0, as `Int.toNat` does). -/
def as_u16 (x : ℚ) : Nat := min 65535 (Int.toNat ⌊x⌋)

/-- `Renderer::render_window_with_opacity` (src/renderer.rs, lines
509–574): no-op for zero area or opacity ≤ 0; otherwise identity
transform, `nearest` filter, a solid-fill mask whose four channels are
`(opacity.clamp(0,1) * 65535) as u16`, an OVER composite, and freeing
the mask. -/
def render_window_with_opacity (s : XState) (src_picture dst_picture : Nat)
    (x y : Int) (width height : Nat) (opacity : ℚ) :
    XState × Except Unit Unit :=
  if width = 0 ∨ height = 0 ∨ opacity ≤ 0 then (s, Except.ok ())
  else
    andThen (set_picture_transform s src_picture (double_to_fixed 1) (double_to_fixed 1))
      fun s _ =>
    andThen (set_picture_filter s src_picture "nearest") fun s _ =>
    let alpha := as_u16 (clampQ opacity 0 1 * 65535)
    andThen (generate_id s) fun s mask_picture =>
    andThen (create_solid_fill s mask_picture alpha alpha alpha alpha) fun s _ =>
    andThen (composite_request s PictOp.over src_picture mask_picture dst_picture
      x y width height) fun s _ =>
    andThen (free_picture s mask_picture) fun s _ =>
    (s, Except.ok ())

/-- Rust `Iterator::position`: index of the first element satisfying the
predicate. -/
def position {α : Type} (p : α → Bool) : List α → Option Nat
  | [] => none
  | a :: l => if p a then some 0 else (position p l).map (fun i => i + 1)

/-- The DamageNotify half of one dispatcher iteration (src/main.rs,
lines 757–767): each event's damage handle is resolved to the first
matching capture index and inserted into the `damaged_windows` set. -/
def damagedSet (captures : List CapturedWindow) (events : List Nat) : List Nat :=
  events.foldl
    (fun acc d =>
      match position (fun c => c.damage == d) captures with
      | some idx => acc.insert idx
      | none => acc)
    []

/-- The refresh loop of one dispatcher iteration (src/main.rs, lines
1004–1025): one `refresh_capture` call per member of `damaged_windows`
that is in bounds; the set is cleared afterwards.  `HashSet` iteration
order is arbitrary; any duplicate-free enumeration represents it. -/
def damageRefreshTargets (captures : List CapturedWindow) (events : List Nat) :
    List Nat :=
  (damagedSet captures events).filter (fun idx => decide (idx < captures.length))

/-- The requests that release a server-side resource (the frees,
destroys and the unredirect). -/
def Req.isRelease : Req → Bool
  | Req.unredirectWindow _ => true
  | Req.freeGC _ => true
  | Req.damageDestroy _ => true
  | Req.freePicture _ => true
  | Req.freePixmap _ => true
  | _ => false

/-- A concrete window: frame window 7, nominal geometry 640 × 480. -/
def demoInfo : WindowInfo := ⟨100, 7, 0, 0, 640, 480, true⟩

/-- A concrete captured surface for window 7: pixmap 1, picture 2,
damage 3. -/
def demoCapture : CapturedWindow := ⟨demoInfo, 1, 2, 3⟩

/-- A second captured surface, for resolving damage handle 6. -/
def demoCapture2 : CapturedWindow := ⟨demoInfo, 4, 5, 6⟩

/-- Server state holding demoCapture's resources in which the fourth
call of the run fails (for `refresh_capture`: the naming of the new
pixmap). -/
def demoRefreshState : XState := ⟨10, [1], [2], [3], [7], [], [false, false, false, true], []⟩

/-- Fresh server state in which the fourth call of the run fails (for
`capture_window`: the geometry query). -/
def demoCaptureState : XState := ⟨10, [], [], [], [], [], [false, false, false, true], []⟩

/-- Server state holding demoCapture's resources in which the first
call of the run fails (for `release_capture`: the damage destroy). -/
def demoReleaseState : XState := ⟨10, [1], [2], [3], [7], [], [true], []⟩

/-- Fresh server state where every call succeeds and the pixmap that
ids from 10 will name reports geometry 300 × 200. -/
def demoOkState : XState := ⟨10, [], [], [], [], [(10, 300, 200)], [], []⟩

/-- Server state holding demoCapture's resources, every call
succeeding, the new pixmap (id 10) reporting geometry 300 × 200. -/
def demoUpgradeState : XState := ⟨10, [1], [2], [3], [7], [(10, 300, 200)], [], []⟩

/-- Server state holding demoCapture's resources in which the first
call of the run fails. -/
def demoFailState : XState := ⟨10, [1], [2], [3], [7], [], [true], []⟩

/-- The capture that a successful `capture_window` on `demoOkState`
and `demoInfo` returns. -/
def demoCapturedCW : CapturedWindow := ⟨⟨100, 7, 0, 0, 300, 200, true⟩, 10, 11, 12⟩

/-- Completely fresh server state: every call succeeds. -/
def emptyState : XState := ⟨0, [], [], [], [], [], [], []⟩

/-- A window whose nominal geometry is 0 × 0. -/
def zeroInfo : WindowInfo := ⟨100, 7, 0, 0, 0, 0, true⟩

/-- A 50 × 40 destination rectangle at (5, 5). -/
def demoLayout : ThumbnailLayout := ⟨5, 5, 50, 40, 0⟩

/-- Advertised picture formats: an indexed one and a direct one, both
of depth 24. -/
def demoFormats : List PictFormatInfo := [⟨1, PictType.indexed, 24⟩, ⟨2, PictType.direct, 24⟩]

/-! Helper lemmas: each fallible call appends exactly its request to the
trace, whether it succeeds or fails (`generate_id` is client-side and
appends nothing), and successful calls update the state as recorded. -/

theorem redirect_window_trace {s s' : XState} {r : Except Unit Unit} {win : Nat}
    (h : redirect_window s win = (s', r)) :
    s'.trace = s.trace ++ [Req.redirectWindow win] := by
  have hg : ((redirect_window s win).1).trace = s.trace ++ [Req.redirectWindow win] := by
    obtain ⟨ni, px, pc, dm, rd, ge, fl, tr⟩ := s
    cases fl with
    | nil => rfl
    | cons b rest => cases b <;> rfl
  rw [h] at hg
  exact hg

theorem generate_id_trace {s s' : XState} {r : Except Unit Nat}
    (h : generate_id s = (s', r)) : s'.trace = s.trace := by
  have hg : ((generate_id s).1).trace = s.trace := by
    obtain ⟨ni, px, pc, dm, rd, ge, fl, tr⟩ := s
    cases fl with
    | nil => rfl
    | cons b rest => cases b <;> rfl
  rw [h] at hg
  exact hg

theorem name_window_pixmap_trace {s s' : XState} {r : Except Unit Unit} {win pix : Nat}
    (h : name_window_pixmap s win pix = (s', r)) :
    s'.trace = s.trace ++ [Req.nameWindowPixmap win pix] := by
  have hg : ((name_window_pixmap s win pix).1).trace
      = s.trace ++ [Req.nameWindowPixmap win pix] := by
    obtain ⟨ni, px, pc, dm, rd, ge, fl, tr⟩ := s
    cases fl with
    | nil => rfl
    | cons b rest => cases b <;> rfl
  rw [h] at hg
  exact hg

theorem get_geometry_trace {s s' : XState} {r : Except Unit (Nat × Nat)} {d : Nat}
    (h : get_geometry s d = (s', r)) :
    s'.trace = s.trace ++ [Req.getGeometry d] := by
  have hg : ((get_geometry s d).1).trace = s.trace ++ [Req.getGeometry d] := by
    obtain ⟨ni, px, pc, dm, rd, ge, fl, tr⟩ := s
    cases fl with
    | nil => rfl
    | cons b rest => cases b <;> rfl
  rw [h] at hg
  exact hg

theorem create_picture_trace {s s' : XState} {r : Except Unit Unit} {pic pix fmt : Nat}
    (h : create_picture s pic pix fmt = (s', r)) :
    s'.trace = s.trace ++ [Req.createPicture pic pix fmt] := by
  have hg : ((create_picture s pic pix fmt).1).trace
      = s.trace ++ [Req.createPicture pic pix fmt] := by
    obtain ⟨ni, px, pc, dm, rd, ge, fl, tr⟩ := s
    cases fl with
    | nil => rfl
    | cons b rest => cases b <;> rfl
  rw [h] at hg
  exact hg

theorem damage_create_trace {s s' : XState} {r : Except Unit Unit} {dmg win : Nat}
    (h : damage_create s dmg win = (s', r)) :
    s'.trace = s.trace ++ [Req.damageCreate dmg win] := by
  have hg : ((damage_create s dmg win).1).trace
      = s.trace ++ [Req.damageCreate dmg win] := by
    obtain ⟨ni, px, pc, dm, rd, ge, fl, tr⟩ := s
    cases fl with
    | nil => rfl
    | cons b rest => cases b <;> rfl
  rw [h] at hg
  exact hg

theorem flush_trace {s s' : XState} {r : Except Unit Unit}
    (h : flush s = (s', r)) : s'.trace = s.trace ++ [Req.flushReq] := by
  have hg : ((flush s).1).trace = s.trace ++ [Req.flushReq] := by
    obtain ⟨ni, px, pc, dm, rd, ge, fl, tr⟩ := s
    cases fl with
    | nil => rfl
    | cons b rest => cases b <;> rfl
  rw [h] at hg
  exact hg

theorem create_pixmap_trace {s s' : XState} {r : Except Unit Unit} {depth pix dr w h : Nat}
    (heq : create_pixmap s depth pix dr w h = (s', r)) :
    s'.trace = s.trace ++ [Req.createPixmap depth pix dr w h] := by
  have hg : ((create_pixmap s depth pix dr w h).1).trace
      = s.trace ++ [Req.createPixmap depth pix dr w h] := by
    obtain ⟨ni, px, pc, dm, rd, ge, fl, tr⟩ := s
    cases fl with
    | nil => rfl
    | cons b rest => cases b <;> rfl
  rw [heq] at hg
  exact hg

theorem create_gc_trace {s s' : XState} {r : Except Unit Unit} {gc pix : Nat}
    (heq : create_gc s gc pix = (s', r)) :
    s'.trace = s.trace ++ [Req.createGC gc pix] := by
  have hg : ((create_gc s gc pix).1).trace = s.trace ++ [Req.createGC gc pix] := by
    obtain ⟨ni, px, pc, dm, rd, ge, fl, tr⟩ := s
    cases fl with
    | nil => rfl
    | cons b rest => cases b <;> rfl
  rw [heq] at hg
  exact hg

theorem poly_fill_rectangle_trace {s s' : XState} {r : Except Unit Unit}
    {pix gc : Nat} {x y : Int} {w h : Nat}
    (heq : poly_fill_rectangle s pix gc x y w h = (s', r)) :
    s'.trace = s.trace ++ [Req.polyFillRectangle pix gc x y w h] := by
  have hg : ((poly_fill_rectangle s pix gc x y w h).1).trace
      = s.trace ++ [Req.polyFillRectangle pix gc x y w h] := by
    obtain ⟨ni, px, pc, dm, rd, ge, fl, tr⟩ := s
    cases fl with
    | nil => rfl
    | cons b rest => cases b <;> rfl
  rw [heq] at hg
  exact hg

theorem free_gc_trace {s s' : XState} {r : Except Unit Unit} {gc : Nat}
    (heq : free_gc s gc = (s', r)) :
    s'.trace = s.trace ++ [Req.freeGC gc] := by
  have hg : ((free_gc s gc).1).trace = s.trace ++ [Req.freeGC gc] := by
    obtain ⟨ni, px, pc, dm, rd, ge, fl, tr⟩ := s
    cases fl with
    | nil => rfl
    | cons b rest => cases b <;> rfl
  rw [heq] at hg
  exact hg

theorem set_picture_transform_trace {s s' : XState} {r : Except Unit Unit}
    {pic : Nat} {m11 m22 : Int}
    (h : set_picture_transform s pic m11 m22 = (s', r)) :
    s'.trace = s.trace ++ [Req.setPictureTransform pic m11 m22] := by
  have hg : ((set_picture_transform s pic m11 m22).1).trace
      = s.trace ++ [Req.setPictureTransform pic m11 m22] := by
    obtain ⟨ni, px, pc, dm, rd, ge, fl, tr⟩ := s
    cases fl with
    | nil => rfl
    | cons b rest => cases b <;> rfl
  rw [h] at hg
  exact hg

theorem set_picture_filter_trace {s s' : XState} {r : Except Unit Unit}
    {pic : Nat} {fn : String}
    (h : set_picture_filter s pic fn = (s', r)) :
    s'.trace = s.trace ++ [Req.setPictureFilter pic fn] := by
  have hg : ((set_picture_filter s pic fn).1).trace
      = s.trace ++ [Req.setPictureFilter pic fn] := by
    obtain ⟨ni, px, pc, dm, rd, ge, fl, tr⟩ := s
    cases fl with
    | nil => rfl
    | cons b rest => cases b <;> rfl
  rw [h] at hg
  exact hg

theorem composite_request_trace {s s' : XState} {r : Except Unit Unit}
    {op : PictOp} {src mask dst : Nat} {dstX dstY : Int} {w h : Nat}
    (heq : composite_request s op src mask dst dstX dstY w h = (s', r)) :
    s'.trace = s.trace ++ [Req.compositeReq op src mask dst dstX dstY w h] := by
  have hg : ((composite_request s op src mask dst dstX dstY w h).1).trace
      = s.trace ++ [Req.compositeReq op src mask dst dstX dstY w h] := by
    obtain ⟨ni, px, pc, dm, rd, ge, fl, tr⟩ := s
    cases fl with
    | nil => rfl
    | cons b rest => cases b <;> rfl
  rw [heq] at hg
  exact hg

theorem generate_id_ok {s s' : XState} {n : Nat}
    (h : generate_id s = (s', Except.ok n)) :
    n = s.nextId ∧ s' = { s with nextId := s.nextId + 1, fails := s.fails.tail } := by
  obtain ⟨ni, px, pc, dm, rd, ge, fl, tr⟩ := s
  cases fl with
  | nil =>
    simp [generate_id] at h
    obtain ⟨h1, rfl⟩ := h
    exact ⟨rfl, by simpa using h1.symm⟩
  | cons b rest =>
    cases b with
    | true => simp [generate_id] at h
    | false =>
      simp [generate_id] at h
      obtain ⟨h1, rfl⟩ := h
      exact ⟨rfl, by simpa using h1.symm⟩

theorem redirect_window_ok {s s' : XState} {win : Nat}
    (h : redirect_window s win = (s', Except.ok ())) :
    s' = { s with redirected := win :: s.redirected,
                  trace := s.trace ++ [Req.redirectWindow win],
                  fails := s.fails.tail } := by
  obtain ⟨ni, px, pc, dm, rd, ge, fl, tr⟩ := s
  cases fl with
  | nil => simp [redirect_window, XState.attempt] at h; simp_all
  | cons b rest =>
    cases b with
    | true => simp [redirect_window, XState.attempt] at h
    | false => simp [redirect_window, XState.attempt] at h; simp_all

theorem name_window_pixmap_ok {s s' : XState} {win pix : Nat}
    (h : name_window_pixmap s win pix = (s', Except.ok ())) :
    s' = { s with pixmaps := pix :: s.pixmaps,
                  trace := s.trace ++ [Req.nameWindowPixmap win pix],
                  fails := s.fails.tail } := by
  obtain ⟨ni, px, pc, dm, rd, ge, fl, tr⟩ := s
  cases fl with
  | nil => simp [name_window_pixmap, XState.attempt] at h; simp_all
  | cons b rest =>
    cases b with
    | true => simp [name_window_pixmap, XState.attempt] at h
    | false => simp [name_window_pixmap, XState.attempt] at h; simp_all

theorem get_geometry_ok {s s' : XState} {d : Nat} {g : Nat × Nat}
    (h : get_geometry s d = (s', Except.ok g)) :
    g = lookupGeom s.geoms d ∧
    s' = { s with trace := s.trace ++ [Req.getGeometry d], fails := s.fails.tail } := by
  obtain ⟨ni, px, pc, dm, rd, ge, fl, tr⟩ := s
  cases fl with
  | nil => simp [get_geometry, XState.attempt] at h; simp_all
  | cons b rest =>
    cases b with
    | true => simp [get_geometry, XState.attempt] at h
    | false => simp [get_geometry, XState.attempt] at h; simp_all

theorem create_picture_ok {s s' : XState} {pic pix fmt : Nat}
    (h : create_picture s pic pix fmt = (s', Except.ok ())) :
    s' = { s with pictures := pic :: s.pictures,
                  trace := s.trace ++ [Req.createPicture pic pix fmt],
                  fails := s.fails.tail } := by
  obtain ⟨ni, px, pc, dm, rd, ge, fl, tr⟩ := s
  cases fl with
  | nil => simp [create_picture, XState.attempt] at h; simp_all
  | cons b rest =>
    cases b with
    | true => simp [create_picture, XState.attempt] at h
    | false => simp [create_picture, XState.attempt] at h; simp_all

theorem position_lt_length {α : Type} {p : α → Bool} :
    ∀ {l : List α} {i : Nat}, position p l = some i → i < l.length := by
  intro l
  induction l with
  | nil => intro i h; simp [position] at h
  | cons a t ih =>
    intro i h
    simp only [position] at h
    by_cases hp : p a
    · rw [if_pos hp] at h
      cases h
      simp
    · rw [if_neg hp] at h
      simp only [Option.map_eq_some'] at h
      obtain ⟨j, hj, rfl⟩ := h
      have := ih hj
      simp only [List.length_cons]
      omega

theorem mem_damagedSet_aux (captures : List CapturedWindow) :
    ∀ (events : List Nat) (acc : List Nat) (i : Nat),
      (i ∈ events.foldl
        (fun acc d =>
          match position (fun c => c.damage == d) captures with
          | some idx => acc.insert idx
          | none => acc) acc ↔
      i ∈ acc ∨ ∃ d ∈ events, position (fun c => c.damage == d) captures = some i) := by
  intro events
  induction events with
  | nil => intro acc i; simp
  | cons d ds ih =>
    intro acc i
    simp only [List.foldl_cons]
    rcases hp : position (fun c => c.damage == d) captures with _ | idx
    · simp only [hp]
      rw [ih]
      constructor
      · rintro (h | h)
        · exact Or.inl h
        · obtain ⟨e, he, hpe⟩ := h
          exact Or.inr ⟨e, List.mem_cons_of_mem d he, hpe⟩
      · rintro (h | ⟨e, he, hpe⟩)
        · exact Or.inl h
        · rcases List.mem_cons.mp he with rfl | he2
          · rw [hp] at hpe; cases hpe
          · exact Or.inr ⟨e, he2, hpe⟩
    · simp only [hp]
      rw [ih]
      constructor
      · rintro (h | h)
        · rcases List.mem_insert_iff.mp h with rfl | h2
          · exact Or.inr ⟨d, List.mem_cons_self d ds, hp⟩
          · exact Or.inl h2
        · obtain ⟨e, he, hpe⟩ := h
          exact Or.inr ⟨e, List.mem_cons_of_mem d he, hpe⟩
      · rintro (h | ⟨e, he, hpe⟩)
        · exact Or.inl (List.mem_insert_iff.mpr (Or.inr h))
        · rcases List.mem_cons.mp he with rfl | he2
          · rw [hp] at hpe
            cases hpe
            exact Or.inl (List.mem_insert_iff.mpr (Or.inl rfl))
          · exact Or.inr ⟨e, he2, hpe⟩

theorem damagedSet_nodup (captures : List CapturedWindow) (events : List Nat) :
    (damagedSet captures events).Nodup := by
  rw [damagedSet]
  have hstep : ∀ (evs : List Nat) (acc : List Nat), acc.Nodup →
      (evs.foldl
        (fun acc d =>
          match position (fun c => c.damage == d) captures with
          | some idx => acc.insert idx
          | none => acc) acc).Nodup := by
    intro evs
    induction evs with
    | nil => intro acc h; simpa
    | cons d ds ih =>
      intro acc h
      simp only [List.foldl_cons]
      rcases hp : position (fun c => c.damage == d) captures with _ | idx
      · simp only [hp]
        exact ih acc h
      · simp only [hp]
        exact ih _ (h.insert)
  exact hstep events [] List.nodup_nil

/-- C1: the spec claims that when a refresh's replacement capture
fails, the surface's previous pixmap and picture handles are retained
and still valid.  In the code (`refresh_capture`, src/capture.rs) the
old picture and pixmap are freed first: on this state the free requests
succeed, the replacement naming fails, the refresh returns an error,
and the previous handles (pixmap 1, picture 2) are no longer live. -/
theorem refresh_failure_drops_old_handles_cx :
    ¬ ((refresh_capture demoRefreshState 0 demoCapture).2 = Except.error () →
        demoCapture.pixmap ∈ (refresh_capture demoRefreshState 0 demoCapture).1.pixmaps ∧
        demoCapture.picture ∈ (refresh_capture demoRefreshState 0 demoCapture).1.pictures) := by
  decide

/-- C1 (amended): `refresh_capture` frees the previous picture and
pixmap before attempting the replacement; when the replacement fails
(here: naming the new pixmap, the fourth call), the error is propagated
and the surface's previous handles are no longer live — the caller in
the main loop logs the failure and drops the refresh. -/
theorem refresh_capture_frees_old_before_replacement (s : XState) (fmt : Nat)
    (cw : CapturedWindow) (rest : List Bool)
    (hf : s.fails = [false, false, false, true] ++ rest) :
    (refresh_capture s fmt cw).2 = Except.error () ∧
    cw.pixmap ∉ (refresh_capture s fmt cw).1.pixmaps ∧
    cw.picture ∉ (refresh_capture s fmt cw).1.pictures := by
  obtain ⟨ni, px, pc, dm, rd, ge, fl, tr⟩ := s
  simp only at hf
  subst hf
  simp [refresh_capture, free_picture, free_pixmap, generate_id, name_window_pixmap,
    andThen, XState.attempt, List.mem_filter]

/-- C1 witness: the amended statement at the concrete failing state. -/
theorem refresh_capture_frees_old_before_replacement_witness :
    (refresh_capture demoRefreshState 0 demoCapture).2 = Except.error () ∧
    demoCapture.pixmap ∉ (refresh_capture demoRefreshState 0 demoCapture).1.pixmaps ∧
    demoCapture.picture ∉ (refresh_capture demoRefreshState 0 demoCapture).1.pictures :=
  refresh_capture_frees_old_before_replacement demoRefreshState 0 demoCapture [] rfl

/-- C2: the spec claims a failed `capture_window` releases the partial
resources it already allocated.  On this state the redirect, id
generation and pixmap naming succeed, the geometry query fails: the
error is returned while pixmap 10 is still allocated and no free
request was ever issued. -/
theorem capture_window_leak_cx :
    ¬ ((capture_window demoCaptureState 0 demoInfo).2 = Except.error () →
        demoCaptureState.nextId ∉ (capture_window demoCaptureState 0 demoInfo).1.pixmaps) := by
  decide

/-- C2 (amended): `capture_window` performs no cleanup on failure: it
never issues a release request under any failure schedule, and when the
geometry query (the fourth call) fails the error is returned with the
freshly named pixmap still allocated. -/
theorem capture_window_no_release_on_failure (s : XState) (fmt : Nat) (info : WindowInfo)
    (rest : List Bool) :
    ((capture_window s fmt info).1.trace.filter Req.isRelease
        = s.trace.filter Req.isRelease) ∧
    (s.fails = [false, false, false, true] ++ rest →
      (capture_window s fmt info).2 = Except.error () ∧
      s.nextId ∈ (capture_window s fmt info).1.pixmaps) := by
  constructor
  · simp only [capture_window]
    rcases h1 : redirect_window s info.frame_window with ⟨s1, r1 | _⟩ <;>
      have t1 := redirect_window_trace h1
    · simp [andThen, t1, List.filter_append, Req.isRelease]
    simp only [h1, andThen]
    rcases h2 : generate_id s1 with ⟨s2, r2 | pixmap⟩ <;> have t2 := generate_id_trace h2
    · simp [andThen, t2, t1, List.filter_append, Req.isRelease]
    simp only [h2]
    rcases h3 : name_window_pixmap s2 info.frame_window pixmap with ⟨s3, r3 | _⟩ <;>
      have t3 := name_window_pixmap_trace h3
    · simp [andThen, t3, t2, t1, List.filter_append, Req.isRelease]
    simp only [h3]
    rcases h4 : get_geometry s3 pixmap with ⟨s4, r4 | geom⟩ <;> have t4 := get_geometry_trace h4
    · simp [andThen, t4, t3, t2, t1, List.filter_append, Req.isRelease]
    simp only [h4]
    rcases h5 : generate_id s4 with ⟨s5, r5 | picture⟩ <;> have t5 := generate_id_trace h5
    · simp [andThen, t5, t4, t3, t2, t1, List.filter_append, Req.isRelease]
    simp only [h5]
    rcases h6 : create_picture s5 picture pixmap fmt with ⟨s6, r6 | _⟩ <;>
      have t6 := create_picture_trace h6
    · simp [andThen, t6, t5, t4, t3, t2, t1, List.filter_append, Req.isRelease]
    simp only [h6]
    rcases h7 : generate_id s6 with ⟨s7, r7 | damage_id⟩ <;> have t7 := generate_id_trace h7
    · simp [andThen, t7, t6, t5, t4, t3, t2, t1, List.filter_append, Req.isRelease]
    simp only [h7]
    rcases h8 : damage_create s7 damage_id info.frame_window with ⟨s8, r8 | _⟩ <;>
      have t8 := damage_create_trace h8
    · simp [andThen, t8, t7, t6, t5, t4, t3, t2, t1, List.filter_append, Req.isRelease]
    simp only [h8]
    rcases h9 : flush s8 with ⟨s9, r9 | _⟩ <;> have t9 := flush_trace h9
    · simp [andThen, t9, t8, t7, t6, t5, t4, t3, t2, t1, List.filter_append, Req.isRelease]
    simp [h9, andThen, t9, t8, t7, t6, t5, t4, t3, t2, t1, List.filter_append, Req.isRelease]
  · intro hf
    obtain ⟨ni, px, pc, dm, rd, ge, fl, tr⟩ := s
    simp only at hf
    subst hf
    simp [capture_window, redirect_window, generate_id, name_window_pixmap, get_geometry,
      andThen, XState.attempt]

/-- C2 witness: the amended statement at the concrete failing state. -/
theorem capture_window_no_release_on_failure_witness :
    (capture_window demoCaptureState 0 demoInfo).2 = Except.error () ∧
    demoCaptureState.nextId ∈ (capture_window demoCaptureState 0 demoInfo).1.pixmaps :=
  (capture_window_no_release_on_failure demoCaptureState 0 demoInfo []).2 rfl

/-- C3: the spec claims all four release steps are attempted even when
an earlier one fails.  On this state destroying the damage registration
fails: the release returns the error and the picture free (like the
pixmap free and the unredirect) was never attempted. -/
theorem release_capture_skips_after_failure_cx :
    ¬ ((release_capture demoReleaseState demoCapture).2 = Except.error () →
        Req.freePicture demoCapture.picture
          ∈ (release_capture demoReleaseState demoCapture).1.trace) := by
  decide

/-- C3 (amended): `release_capture` runs the four operations in
sequence but returns at the first failure: a failed damage destroy
skips the picture free, pixmap free and unredirect entirely; all four
are attempted only when each preceding step succeeds. -/
theorem release_capture_stops_at_first_failure (s : XState) (cw : CapturedWindow)
    (rest : List Bool) (ht : s.trace = []) :
    (s.fails = true :: rest →
      (release_capture s cw).1.trace = [Req.damageDestroy cw.damage] ∧
      (release_capture s cw).2 = Except.error ()) ∧
    (s.fails = [] →
      (release_capture s cw).1.trace =
        [Req.damageDestroy cw.damage, Req.freePicture cw.picture,
         Req.freePixmap cw.pixmap, Req.unredirectWindow cw.info.frame_window] ∧
      (release_capture s cw).2 = Except.ok ()) := by
  obtain ⟨ni, px, pc, dm, rd, ge, fl, tr⟩ := s
  simp only at ht
  subst ht
  constructor
  · intro hf
    simp only at hf
    subst hf
    simp [release_capture, damage_destroy, free_picture, free_pixmap, unredirect_window,
      andThen, XState.attempt]
  · intro hf
    simp only at hf
    subst hf
    simp [release_capture, damage_destroy, free_picture, free_pixmap, unredirect_window,
      andThen, XState.attempt]

/-- C3 witness: the amended statement at the concrete failing state. -/
theorem release_capture_stops_at_first_failure_witness :
    (release_capture demoReleaseState demoCapture).1.trace
      = [Req.damageDestroy demoCapture.damage] ∧
    (release_capture demoReleaseState demoCapture).2 = Except.error () :=
  (release_capture_stops_at_first_failure demoReleaseState demoCapture [] rfl).1 rfl

/-- C4: within one dispatcher batch, every damage event is resolved to
the first capture whose damage handle matches and its index inserted
into the `damaged_windows` set; the refresh loop then runs once per set
member, so N ≥ 1 notifications for the same surface produce exactly one
refresh call for it in that iteration. -/
theorem damage_refresh_once (captures : List CapturedWindow) (events : List Nat) (i : Nat)
    (h : ∃ d ∈ events, position (fun c => c.damage == d) captures = some i) :
    (damageRefreshTargets captures events).count i = 1 := by
  have hmem : i ∈ damagedSet captures events := by
    rw [damagedSet, mem_damagedSet_aux]
    exact Or.inr h
  obtain ⟨d, hd, hpos⟩ := h
  have hlt : i < captures.length := position_lt_length hpos
  have hmemT : i ∈ damageRefreshTargets captures events := by
    rw [damageRefreshTargets, List.mem_filter]
    exact ⟨hmem, by simpa using hlt⟩
  have hnd : (damageRefreshTargets captures events).Nodup :=
    (damagedSet_nodup captures events).filter _
  exact List.count_eq_one_of_mem hnd hmemT

/-- C4 witness: three notifications for surface 0's damage handle (3)
in one batch yield exactly one refresh of surface 0. -/
theorem damage_refresh_once_witness :
    (damageRefreshTargets [demoCapture, demoCapture2] [3, 3, 3]).count 0 = 1 :=
  damage_refresh_once [demoCapture, demoCapture2] [3, 3, 3] 0 ⟨3, by decide, by decide⟩

/-- C5: `try_upgrade_placeholder` either returns false with the capture
record completely unchanged, or returns true with the pixmap and
picture handles replaced by the two freshly generated ids and the
dimensions set to the geometry the server reported for the new
pixmap. -/
theorem try_upgrade_placeholder_atomic (s : XState) (fmt : Nat) (cw : CapturedWindow) :
    ((try_upgrade_placeholder s fmt cw).2.1 = false →
      (try_upgrade_placeholder s fmt cw).2.2 = cw) ∧
    ((try_upgrade_placeholder s fmt cw).2.1 = true →
      (try_upgrade_placeholder s fmt cw).2.2.pixmap = s.nextId ∧
      (try_upgrade_placeholder s fmt cw).2.2.picture = s.nextId + 1 ∧
      (try_upgrade_placeholder s fmt cw).2.2.info.width = (lookupGeom s.geoms s.nextId).1 ∧
      (try_upgrade_placeholder s fmt cw).2.2.info.height
        = (lookupGeom s.geoms s.nextId).2) := by
  unfold try_upgrade_placeholder
  rcases h1 : generate_id s with ⟨s1, r1 | new_pixmap⟩
  · simp [h1]
  rcases h2 : name_window_pixmap s1 cw.info.frame_window new_pixmap with ⟨s2, r2 | _⟩
  · simp [h1, h2]
  rcases h3 : get_geometry s2 new_pixmap with ⟨s3, r3 | geom⟩
  · simp [h1, h2, h3]
  rcases h4 : generate_id s3 with ⟨s4, r4 | new_picture⟩
  · simp [h1, h2, h3, h4]
  rcases h5 : create_picture s4 new_picture new_pixmap fmt with ⟨s5, r5 | _⟩
  · simp [h1, h2, h3, h4, h5]
  simp only [h1, h2, h3, h4, h5]
  obtain ⟨hn1, hs1⟩ := generate_id_ok h1
  have hs2 := name_window_pixmap_ok h2
  obtain ⟨hg, hs3⟩ := get_geometry_ok h3
  obtain ⟨hn4, hs4⟩ := generate_id_ok h4
  subst hs1 hs2 hs3 hs4 hn1 hn4 hg
  simp

/-- C5 witness: on a state where every call succeeds and the new pixmap
(id 10) reports 300 × 200, the upgrade returns true with the fresh
handles and the new geometry; on a state whose first call fails it
returns false with the capture unchanged. -/
theorem try_upgrade_placeholder_atomic_witness :
    (try_upgrade_placeholder demoUpgradeState 0 demoCapture).2.1 = true ∧
    (try_upgrade_placeholder demoUpgradeState 0 demoCapture).2.2.pixmap
      = demoUpgradeState.nextId ∧
    (try_upgrade_placeholder demoUpgradeState 0 demoCapture).2.2.info.width
      = (lookupGeom demoUpgradeState.geoms demoUpgradeState.nextId).1 ∧
    (try_upgrade_placeholder demoFailState 0 demoCapture).2.1 = false ∧
    (try_upgrade_placeholder demoFailState 0 demoCapture).2.2 = demoCapture := by
  have hyes := (try_upgrade_placeholder_atomic demoUpgradeState 0 demoCapture).2 (by decide)
  have hno := (try_upgrade_placeholder_atomic demoFailState 0 demoCapture).1 (by decide)
  exact ⟨by decide, hyes.1, hyes.2.2.1, by decide, hno⟩

/-- C6: a successful `capture_window` reports as content dimensions the
geometry the server returned for the named pixmap (looked up in the
geometry table), not the nominal geometry the caller passed in
`info`.  (The witness exhibits an input where the two differ.) -/
theorem capture_window_uses_pixmap_geometry (s : XState) (fmt : Nat) (info : WindowInfo)
    (cw : CapturedWindow) (h : (capture_window s fmt info).2 = Except.ok cw) :
    cw.pixmap = s.nextId ∧
    cw.info.width = (lookupGeom s.geoms cw.pixmap).1 ∧
    cw.info.height = (lookupGeom s.geoms cw.pixmap).2 := by
  unfold capture_window at h
  rcases h1 : redirect_window s info.frame_window with ⟨s1, r1 | _⟩
  · rw [h1] at h; simp [andThen] at h
  rw [h1] at h
  rcases h2 : generate_id s1 with ⟨s2, r2 | pixmap⟩
  · rw [andThen, h2] at h; simp [andThen] at h
  rw [andThen, h2] at h
  rcases h3 : name_window_pixmap s2 info.frame_window pixmap with ⟨s3, r3 | _⟩
  · rw [andThen, h3] at h; simp [andThen] at h
  rw [andThen, h3] at h
  rcases h4 : get_geometry s3 pixmap with ⟨s4, r4 | geom⟩
  · rw [andThen, h4] at h; simp [andThen] at h
  rw [andThen, h4] at h
  rcases h5 : generate_id s4 with ⟨s5, r5 | picture⟩
  · rw [andThen, h5] at h; simp [andThen] at h
  rw [andThen, h5] at h
  rcases h6 : create_picture s5 picture pixmap fmt with ⟨s6, r6 | _⟩
  · rw [andThen, h6] at h; simp [andThen] at h
  rw [andThen, h6] at h
  rcases h7 : generate_id s6 with ⟨s7, r7 | damage_id⟩
  · rw [andThen, h7] at h; simp [andThen] at h
  rw [andThen, h7] at h
  rcases h8 : damage_create s7 damage_id info.frame_window with ⟨s8, r8 | _⟩
  · rw [andThen, h8] at h; simp [andThen] at h
  rw [andThen, h8] at h
  rcases h9 : flush s8 with ⟨s9, r9 | _⟩
  · rw [andThen, h9] at h; simp [andThen] at h
  rw [andThen, h9] at h
  simp only [andThen, Except.ok.injEq] at h
  have hr1 := redirect_window_ok h1
  obtain ⟨hn2, hs2⟩ := generate_id_ok h2
  have hs3 := name_window_pixmap_ok h3
  obtain ⟨hg, hs4⟩ := get_geometry_ok h4
  subst hr1 hs2 hs3 hs4 hn2 hg
  rw [← h]
  simp

/-- C6 witness: nominal geometry 640 × 480, the server reports 300 ×
200 for the pixmap; the captured surface carries 300 × 200. -/
theorem capture_window_uses_pixmap_geometry_witness :
    demoCapturedCW.info.width = (lookupGeom demoOkState.geoms demoCapturedCW.pixmap).1 ∧
    demoCapturedCW.info.height = (lookupGeom demoOkState.geoms demoCapturedCW.pixmap).2 ∧
    demoCapturedCW.info.width ≠ demoInfo.width := by
  have h := capture_window_uses_pixmap_geometry demoOkState 0 demoInfo demoCapturedCW
    (by decide)
  exact ⟨h.2.1, h.2.2, by decide⟩

/-- C7: the spec claims the filter is nearest for a 1:1 blit.  In a
1:1 call (source 50 × 40 onto a 50 × 40 rectangle) `render_thumbnail`
never requests the nearest filter: it requests bilinear. -/
theorem render_thumbnail_nearest_cx :
    ¬ (Req.setPictureFilter 50 "nearest"
        ∈ (render_thumbnail emptyState 50 60 50 40 demoLayout).1.trace) ∧
    Req.setPictureFilter 50 "bilinear"
      ∈ (render_thumbnail emptyState 50 60 50 40 demoLayout).1.trace := by
  decide

/-- C7 (amended): `render_thumbnail` always selects the bilinear
filter — for 1:1 blits exactly as for scale changes; nearest is never
requested (a zero-area destination issues no request at all). -/
theorem render_thumbnail_filter_always_bilinear (s : XState)
    (src_picture dst_picture src_width src_height : Nat) (layout : ThumbnailLayout)
    (ht : s.trace = []) :
    ∀ pic fn, Req.setPictureFilter pic fn
        ∈ (render_thumbnail s src_picture dst_picture src_width src_height layout).1.trace →
      fn = "bilinear" := by
  intro pic fn hmem
  rw [render_thumbnail] at hmem
  by_cases hz : layout.width = 0 ∨ layout.height = 0
  · simp [hz, ht] at hmem
  rw [if_neg hz] at hmem
  rcases h1 : set_picture_transform s src_picture
      (double_to_fixed ((src_width : ℚ) / (layout.width : ℚ)))
      (double_to_fixed ((src_height : ℚ) / (layout.height : ℚ))) with ⟨s1, r1 | _⟩ <;>
    have t1 := set_picture_transform_trace h1 <;> rw [h1] at hmem
  · simp [andThen, t1, ht] at hmem
  simp only [andThen] at hmem
  rcases h2 : set_picture_filter s1 src_picture "bilinear" with ⟨s2, r2 | _⟩ <;>
    have t2 := set_picture_filter_trace h2 <;> rw [h2] at hmem
  · simp [andThen, t2, t1, ht] at hmem
    exact hmem.2
  simp only [andThen] at hmem
  rcases h3 : composite_request s2 PictOp.src src_picture 0 dst_picture
      layout.x layout.y layout.width layout.height with ⟨s3, r3 | _⟩ <;>
    have t3 := composite_request_trace h3 <;> rw [h3] at hmem
  · simp [andThen, t3, t2, t1, ht] at hmem
    exact hmem.2
  simp [andThen, t3, t2, t1, ht] at hmem
  exact hmem.2

/-- C7 witness: the amended statement applied to the 1:1 call. -/
theorem render_thumbnail_filter_always_bilinear_witness :
    Req.setPictureFilter 50 "bilinear"
      ∈ (render_thumbnail emptyState 50 60 50 40 demoLayout).1.trace ∧
    ("bilinear" : String) = "bilinear" :=
  ⟨by decide,
   render_thumbnail_filter_always_bilinear emptyState 50 60 50 40 demoLayout rfl
     50 "bilinear" (by decide)⟩

/-- C8: the pixel-format scan succeeds exactly on a format whose depth
equals the root depth and whose type is direct, and its absence is
reported as the distinct `NoPictFormat` error kind. -/
theorem find_pict_format_correct (formats : List PictFormatInfo) (d : Nat) :
    (∀ fmtId, find_pict_format_rgb formats d = Except.ok fmtId →
      ∃ f ∈ formats, f.id = fmtId ∧ f.depth = d ∧ f.ty = PictType.direct) ∧
    (find_pict_format_rgb formats d = Except.error XposeError.noPictFormat ↔
      ∀ f ∈ formats, ¬(f.depth = d ∧ f.ty = PictType.direct)) := by
  rcases hf : formats.find? (fun f => f.depth == d && f.ty == PictType.direct) with _ | f
  · have hall := List.find?_eq_none.mp hf
    constructor
    · intro fmtId h
      rw [find_pict_format_rgb, hf] at h
      cases h
    · constructor
      · intro _ f hfm hcon
        have := hall f hfm
        simp [hcon.1, hcon.2] at this
      · intro _
        rw [find_pict_format_rgb, hf]
  · have hp := List.find?_some hf
    have hm := List.mem_of_find?_eq_some hf
    simp only [Bool.and_eq_true, beq_iff_eq] at hp
    constructor
    · intro fmtId h
      rw [find_pict_format_rgb, hf] at h
      refine ⟨f, hm, ?_, hp.1, hp.2⟩
      cases h
      rfl
    · constructor
      · intro h
        rw [find_pict_format_rgb, hf] at h
        cases h
      · intro h
        exact absurd ⟨hp.1, hp.2⟩ (h f hm)

/-- C8 witness: among an indexed and a direct depth-24 format, the scan
at depth 24 picks the direct one (id 2); at depth 32 it fails with
`NoPictFormat`. -/
theorem find_pict_format_correct_witness :
    (∃ f ∈ demoFormats, f.id = 2 ∧ f.depth = 24 ∧ f.ty = PictType.direct) ∧
    find_pict_format_rgb demoFormats 32 = Except.error XposeError.noPictFormat :=
  ⟨(find_pict_format_correct demoFormats 24).1 2 (by decide),
   (find_pict_format_correct demoFormats 32).2.mpr (by decide)⟩

/-- C9: whatever the failure schedule, every pixmap-creation and every
fill-rectangle request issued by `create_placeholder_capture` carries
dimensions of at least 1 × 1 (the source passes `width.max(1)` and
`height.max(1)`), so a zero-size pixmap is never requested even for a
0 × 0 window. -/
theorem placeholder_pixmap_nonzero (s : XState) (fmt root_depth root : Nat)
    (info : WindowInfo) (ht : s.trace = []) :
    (∀ depth pix dr w h,
      Req.createPixmap depth pix dr w h
          ∈ (create_placeholder_capture s fmt root_depth root info).1.trace →
        1 ≤ w ∧ 1 ≤ h) ∧
    (∀ pix gc x y w h,
      Req.polyFillRectangle pix gc x y w h
          ∈ (create_placeholder_capture s fmt root_depth root info).1.trace →
        1 ≤ w ∧ 1 ≤ h) := by
  simp only [create_placeholder_capture]
  rcases h0 : redirect_window s info.frame_window with ⟨s0, r0⟩
  have t0 := redirect_window_trace h0
  simp only [h0]
  rcases h1 : generate_id s0 with ⟨s1, r1 | pixmap⟩ <;> have t1 := generate_id_trace h1
  · refine ⟨fun a1 a2 a3 a4 a5 hmem => ?_, fun a1 a2 a3 a4 a5 a6 hmem => ?_⟩ <;>
      simp [andThen, t1, t0, ht] at hmem
  simp only [h1, andThen]
  rcases h2 : create_pixmap s1 root_depth pixmap root (max info.width 1) (max info.height 1)
      with ⟨s2, r2 | _⟩ <;> have t2 := create_pixmap_trace h2
  · refine ⟨fun a1 a2 a3 a4 a5 hmem => ?_, fun a1 a2 a3 a4 a5 a6 hmem => ?_⟩ <;>
      simp [andThen, t2, t1, t0, ht] at hmem <;> omega
  simp only [h2]
  rcases h3 : generate_id s2 with ⟨s3, r3 | gc⟩ <;> have t3 := generate_id_trace h3
  · refine ⟨fun a1 a2 a3 a4 a5 hmem => ?_, fun a1 a2 a3 a4 a5 a6 hmem => ?_⟩ <;>
      simp [andThen, t3, t2, t1, t0, ht] at hmem <;> omega
  simp only [h3]
  rcases h4 : create_gc s3 gc pixmap with ⟨s4, r4 | _⟩ <;> have t4 := create_gc_trace h4
  · refine ⟨fun a1 a2 a3 a4 a5 hmem => ?_, fun a1 a2 a3 a4 a5 a6 hmem => ?_⟩ <;>
      simp [andThen, t4, t3, t2, t1, t0, ht] at hmem <;> omega
  simp only [h4]
  rcases h5 : poly_fill_rectangle s4 pixmap gc 0 0 (max info.width 1) (max info.height 1)
      with ⟨s5, r5 | _⟩ <;> have t5 := poly_fill_rectangle_trace h5
  · refine ⟨fun a1 a2 a3 a4 a5 hmem => ?_, fun a1 a2 a3 a4 a5 a6 hmem => ?_⟩ <;>
      simp [andThen, t5, t4, t3, t2, t1, t0, ht] at hmem <;> omega
  simp only [h5]
  rcases h6 : free_gc s5 gc with ⟨s6, r6 | _⟩ <;> have t6 := free_gc_trace h6
  · refine ⟨fun a1 a2 a3 a4 a5 hmem => ?_, fun a1 a2 a3 a4 a5 a6 hmem => ?_⟩ <;>
      simp [andThen, t6, t5, t4, t3, t2, t1, t0, ht] at hmem <;> omega
  simp only [h6]
  rcases h7 : generate_id s6 with ⟨s7, r7 | picture⟩ <;> have t7 := generate_id_trace h7
  · refine ⟨fun a1 a2 a3 a4 a5 hmem => ?_, fun a1 a2 a3 a4 a5 a6 hmem => ?_⟩ <;>
      simp [andThen, t7, t6, t5, t4, t3, t2, t1, t0, ht] at hmem <;> omega
  simp only [h7]
  rcases h8 : create_picture s7 picture pixmap fmt with ⟨s8, r8 | _⟩ <;>
    have t8 := create_picture_trace h8
  · refine ⟨fun a1 a2 a3 a4 a5 hmem => ?_, fun a1 a2 a3 a4 a5 a6 hmem => ?_⟩ <;>
      simp [andThen, t8, t7, t6, t5, t4, t3, t2, t1, t0, ht] at hmem <;> omega
  simp only [h8]
  rcases h9 : generate_id s8 with ⟨s9, r9 | damage_id⟩ <;> have t9 := generate_id_trace h9
  · refine ⟨fun a1 a2 a3 a4 a5 hmem => ?_, fun a1 a2 a3 a4 a5 a6 hmem => ?_⟩ <;>
      simp [andThen, t9, t8, t7, t6, t5, t4, t3, t2, t1, t0, ht] at hmem <;> omega
  simp only [h9]
  rcases h10 : damage_create s9 damage_id info.frame_window with ⟨s10, r10 | _⟩ <;>
    have t10 := damage_create_trace h10
  · refine ⟨fun a1 a2 a3 a4 a5 hmem => ?_, fun a1 a2 a3 a4 a5 a6 hmem => ?_⟩ <;>
      simp [andThen, t10, t9, t8, t7, t6, t5, t4, t3, t2, t1, t0, ht] at hmem <;> omega
  simp only [h10]
  rcases h11 : flush s10 with ⟨s11, r11 | _⟩ <;> have t11 := flush_trace h11
  · refine ⟨fun a1 a2 a3 a4 a5 hmem => ?_, fun a1 a2 a3 a4 a5 a6 hmem => ?_⟩ <;>
      simp [andThen, t11, t10, t9, t8, t7, t6, t5, t4, t3, t2, t1, t0, ht] at hmem <;> omega
  refine ⟨fun a1 a2 a3 a4 a5 hmem => ?_, fun a1 a2 a3 a4 a5 a6 hmem => ?_⟩ <;>
    simp [andThen, t11, t10, t9, t8, t7, t6, t5, t4, t3, t2, t1, t0, ht] at hmem <;> omega

/-- C9 witness: for a 0 × 0 window the placeholder run requests a
1 × 1 pixmap, and the theorem certifies its dimensions are ≥ 1. -/
theorem placeholder_pixmap_nonzero_witness :
    Req.createPixmap 24 0 99 1 1
      ∈ (create_placeholder_capture emptyState 5 24 99 zeroInfo).1.trace ∧
    (1 ≤ 1 ∧ 1 ≤ 1) :=
  ⟨by decide,
   (placeholder_pixmap_nonzero emptyState 5 24 99 zeroInfo rfl).1 24 0 99 1 1 (by decide)⟩

/-- C10: `render_window_with_opacity` clamps the opacity into [0, 1]
before building the solid-fill mask: any opacity above 1 makes the call
behave exactly as opacity 1 (whose mask channels are all 65535), and
the computed channel value never exceeds 65535. -/
theorem render_window_with_opacity_clamps (s : XState) (src dst : Nat) (x y : Int)
    (w h : Nat) (o : ℚ) :
    (1 < o →
      render_window_with_opacity s src dst x y w h o
        = render_window_with_opacity s src dst x y w h 1) ∧
    as_u16 (clampQ o 0 1 * 65535) ≤ 65535 ∧
    as_u16 (clampQ 1 0 1 * 65535) = 65535 := by
  refine ⟨?_, ?_, ?_⟩
  · intro ho
    have hc : clampQ o 0 1 = clampQ 1 0 1 := by
      rw [clampQ, clampQ]
      rw [min_eq_right (le_of_lt ho), min_self]
    have hno : ¬ o ≤ 0 := by linarith
    have hn1 : ¬ (1 : ℚ) ≤ 0 := by norm_num
    rw [render_window_with_opacity, render_window_with_opacity, hc]
    by_cases hz : w = 0 ∨ h = 0
    · rcases hz with hz | hz <;> simp [hz]
    · push_neg at hz
      rw [if_neg (by tauto), if_neg (by tauto)]
  · rw [as_u16]
    exact Nat.min_le_left _ _
  · rw [as_u16, clampQ]
    norm_num

/-- C10 witness: opacity 2 renders identically to opacity 1, and the
clamped channel value for opacity 2 is exactly 65535. -/
theorem render_window_with_opacity_clamps_witness :
    render_window_with_opacity emptyState 50 60 5 5 30 20 2
      = render_window_with_opacity emptyState 50 60 5 5 30 20 1 ∧
    as_u16 (clampQ 2 0 1 * 65535) ≤ 65535 :=
  ⟨(render_window_with_opacity_clamps emptyState 50 60 5 5 30 20 2).1 (by norm_num),
   (render_window_with_opacity_clamps emptyState 50 60 5 5 30 20 2).2.1⟩

end Xpose
